import Mathlib

/-!
Shallow embedding of the translator-service core (Go) in Lean 4.

Go strings are modelled as lists of Unicode code points (`GoStr`); `len` on a
Go string is the UTF-8 byte length, recovered here by summing per-rune UTF-8
sizes.  Go errors are modelled by the inductive `GoError`, keeping the message
text (for the dispatcher's string matching) and the wrapping structure of
`fmt.Errorf` with a trailing wrap verb.  The dispatcher's interaction with the
execution context is abstracted by `RunCtx`: the value of `ctx.Err()` observed
after each failed attempt, and whether the context fires during each backoff
wait.  A provider's observable behaviour in one run is the outcome of its i-th
invocation (`Provider`).
-/

/-- Go strings as sequences of runes (Unicode code points). -/
abbrev GoStr := List Char

/-- UTF-8 byte size of one rune, as Go encodes it. -/
def utf8Size (c : Char) : Nat :=
  if c.toNat ≤ 0x7F then 1
  else if c.toNat ≤ 0x7FF then 2
  else if c.toNat ≤ 0xFFFF then 3
  else 4

/-- Go `len(s)` on a string: the UTF-8 byte length. -/
def goLen (s : GoStr) : Nat := (s.map utf8Size).sum

/-- Go `unicode.IsSpace`: the Unicode White_Space property. -/
def goIsSpace (c : Char) : Bool :=
  (9 ≤ c.toNat && c.toNat ≤ 13) || c.toNat = 32 || c.toNat = 0x85 || c.toNat = 0xA0 ||
  c.toNat = 0x1680 || (0x2000 ≤ c.toNat && c.toNat ≤ 0x200A) ||
  c.toNat = 0x2028 || c.toNat = 0x2029 || c.toNat = 0x202F ||
  c.toNat = 0x205F || c.toNat = 0x3000

/-- Go `strings.TrimSpace`: drop White_Space runes from both ends. -/
def trimSpace (s : GoStr) : GoStr :=
  ((s.dropWhile goIsSpace).reverse.dropWhile goIsSpace).reverse

/-- Accumulator-style splitter behind `fields`; `acc` holds the current word
reversed. -/
def fieldsAux (acc : GoStr) : GoStr → List GoStr
  | [] => if acc.isEmpty then [] else [acc.reverse]
  | c :: rest =>
    if goIsSpace c then
      if acc.isEmpty then fieldsAux [] rest
      else acc.reverse :: fieldsAux [] rest
    else fieldsAux (c :: acc) rest

/-- Go `strings.Fields`: split around maximal runs of White_Space runes. -/
def fields (s : GoStr) : List GoStr := fieldsAux [] s

/-- The character class of `\s` in a Go regular expression:
tab, newline, form feed, carriage return, space. -/
def isRegexSpace (c : Char) : Bool :=
  c = '\t' || c = '\n' || c = '\x0C' || c = '\r' || c = ' '

/-- State machine for `regexp.MustCompile("\s+").ReplaceAllString(text, " ")`:
each maximal run of regex whitespace becomes a single space.  `inRun` records
whether the previous rune was part of a whitespace run. -/
def collapseAux (inRun : Bool) : GoStr → GoStr
  | [] => []
  | c :: rest =>
    if isRegexSpace c then
      if inRun then collapseAux true rest
      else ' ' :: collapseAux true rest
    else c :: collapseAux false rest

/-- Whitespace collapsing as performed at the top of
`containsEnglishCharacters`. -/
def collapseWhitespace (s : GoStr) : GoStr := collapseAux false s

/-- The letter test of the source loop: `unicode.IsLetter(r) && (r in A..Z or
a..z)`; the range check alone already implies `IsLetter`. -/
def isGoAsciiLetter (c : Char) : Bool :=
  ('A' ≤ c && c ≤ 'Z') || ('a' ≤ c && c ≤ 'z')

/-- Does the text contain an ASCII letter? -/
def hasAsciiLetterB (s : GoStr) : Bool := s.any isGoAsciiLetter

/-- Number of runes with code point at most 127 (the `asciiCount` loop). -/
def asciiCountLe127 (s : GoStr) : Nat := s.countP (fun c => c.toNat ≤ 127)

/-- `ValidationService.containsEnglishCharacters`: after collapsing
whitespace, either some ASCII letter occurs, or more than 80% of the runes are
ASCII.  The source compares `float64(asciiCount)/float64(totalCount) > 0.8`;
for the reachable input sizes this is exactly the rational comparison
`5*asciiCount > 4*totalCount` embedded here. -/
def containsEnglishCharacters (text : GoStr) : Bool :=
  let t := collapseWhitespace text
  if hasAsciiLetterB t then true
  else decide (0 < t.length) && decide (4 * t.length < 5 * asciiCountLe127 t)

/-- `ValidationService.isMostlyEnglish`: delegates to
`containsEnglishCharacters`. -/
def isMostlyEnglish (text : GoStr) : Bool := containsEnglishCharacters text

/-- `ValidationService.containsInvalidCharacters`: a control rune below 0x20
other than tab, newline, carriage return, or a rune in [0x7F, 0x9F]. -/
def containsInvalidCharacters (text : GoStr) : Bool :=
  text.any fun r =>
    (r.toNat < 32 && !(r.toNat = 9) && !(r.toNat = 10) && !(r.toNat = 13)) ||
    (127 ≤ r.toNat && r.toNat ≤ 159)

/-- The `ValidationError` struct: a message string. -/
structure ValidationError where
  message : GoStr
deriving DecidableEq

/-- `ValidationService.ValidateTextInput`; `none` models a nil error. -/
def ValidateTextInput (text : GoStr) : Option ValidationError :=
  if trimSpace text = [] then
    some ⟨"Text input cannot be empty".toList⟩
  else if 10000 < goLen text then
    some ⟨"Text input is too long (maximum 10000 characters)".toList⟩
  else if (fields text).length = 0 then
    some ⟨"Text input cannot contain only whitespace".toList⟩
  else if containsInvalidCharacters text = true then
    some ⟨"Text contains invalid characters".toList⟩
  else if containsEnglishCharacters text = false then
    some ⟨"Text must contain English characters".toList⟩
  else if isMostlyEnglish text = false then
    some ⟨"Text must be primarily in English".toList⟩
  else
    none

/-- `ValidationService.ValidateModelInput`: empty after trimming fails, then a
linear scan for an exact, case-sensitive match. -/
def ValidateModelInput (model : GoStr) (supportedModels : List GoStr) :
    Option ValidationError :=
  if trimSpace model = [] then
    some ⟨"Model selection cannot be empty".toList⟩
  else if supportedModels.any (fun supportedModel => supportedModel == model) then
    none
  else
    some ⟨("Unsupported model: ".toList ++ model)⟩

/-- Go error values as the dispatcher can observe them: a `*ValidationError`,
the two context errors, an error built by `fmt.Errorf` with a leading text and
a trailing `%w` wrap verb, and any other plain error. -/
inductive GoError where
  | validation (msg : GoStr)
  | ctxCanceled
  | ctxDeadlineExceeded
  | errorf (lead : GoStr) (wrapped : GoError)
  | simple (msg : GoStr)
deriving DecidableEq

/-- `err.Error()`: the message text of a `GoError`. -/
def errString : GoError → GoStr
  | .validation msg => msg
  | .ctxCanceled => "context canceled".toList
  | .ctxDeadlineExceeded => "context deadline exceeded".toList
  | .errorf lead wrapped => lead ++ errString wrapped
  | .simple msg => msg

/-- Does list `s` start with list `pat`? -/
def leadsWith : GoStr → GoStr → Bool
  | _, [] => true
  | [], _ :: _ => false
  | c :: cs, d :: ds => c == d && leadsWith cs ds

/-- Go `strings.Contains(s, pat)`. -/
def goContains : GoStr → GoStr → Bool
  | [], pat => leadsWith [] pat
  | c :: rest, pat => leadsWith (c :: rest) pat || goContains rest pat

/-- The dispatcher's error classification:
`strings.Contains(err.Error(), "validation error:")`. -/
def containsValidationErrorMsg (e : GoError) : Bool :=
  goContains (errString e) "validation error:".toList

/-- The `TranslationRequest` struct. -/
structure TranslationRequest where
  text : GoStr
  model : GoStr
deriving DecidableEq

/-- The `TranslationResponse` struct. -/
structure TranslationResponse where
  original : GoStr
  translation : GoStr
  model : GoStr
deriving DecidableEq

/-- The observable behaviour of one registered translator in a run: the
outcome of its i-th invocation on a request (a response, or an error). -/
abbrev Provider := Nat → TranslationRequest → Except GoError TranslationResponse

/-- The dispatcher's observations of the execution context during one run:
`errAfter i` is the value of `ctx.Err()` checked after a failed attempt `i`;
`errDuringWait i` is `some e` when the context fires (with error `e`) during
the backoff wait that follows attempt `i`. -/
structure RunCtx where
  errAfter : Nat → Option GoError
  errDuringWait : Nat → Option GoError

/-- A context that is never cancelled. -/
def liveCtx : RunCtx := ⟨fun _ => none, fun _ => none⟩

/-- `fmt.Errorf("failed to translate with %s after retries: %w", model, err)`. -/
def afterRetriesError (model : GoStr) (e : GoError) : GoError :=
  .errorf ("failed to translate with ".toList ++ model ++ " after retries: ".toList) e

namespace MockTranslator

/-- `MockTranslator.mockTranslate`: the switch on the translator's display
name; every arm produces the same templated text. -/
def mockTranslate (name text : GoStr) : GoStr :=
  if name = "GPT-3.5".toList then "[Translated by GPT-3.5] ".toList ++ text
  else if name = "GPT-4".toList then "[Translated by GPT-4] ".toList ++ text
  else if name = "Claude".toList then "[Translated by Claude] ".toList ++ text
  else if name = "Llama".toList then "[Translated by Llama] ".toList ++ text
  else "[Translated by ".toList ++ name ++ "] ".toList ++ text

/-- `MockTranslator.Translate`: after the simulated delay, return the context
error if the context has fired, otherwise the templated response.  Note the
`Model` field is set to the mock's display name `mt.name`, not `req.Model`. -/
def Translate (name : GoStr) (ctxErr : Option GoError)
    (req : TranslationRequest) : Except GoError TranslationResponse :=
  match ctxErr with
  | some e => .error e
  | none => .ok ⟨req.text, mockTranslate name req.text, name⟩

end MockTranslator

/-- The behaviour of a `MockTranslator` under a context that never fires. -/
def mockProviderLive (name : GoStr) : Provider :=
  fun _ req => MockTranslator.Translate name none req

namespace TranslatorService

/-- `registerTranslators`, as a function of the configuration predicates it
consults (`HasOpenAIKey`, whether the OpenAI endpoint starts with the idealab
URL, `HasAnthropicKey`) and of the translator constructors; the Go map is
modelled as an association list whose keys are exactly the assigned map keys,
in program order. -/
def registerTranslators (hasOpenAIKey openAIEndpointIsIdealab hasAnthropicKey : Bool)
    (newOpenAITranslator newAnthropicTranslator : Provider)
    (newMockTranslator : GoStr → Provider) : List (GoStr × Provider) :=
  (if hasOpenAIKey then
    (if openAIEndpointIsIdealab then
      [("Qwen3-Coder-Plus".toList, newOpenAITranslator),
       ("qwen-max-latest".toList, newOpenAITranslator),
       ("qwen-plus".toList, newOpenAITranslator),
       ("qwen2.5-max".toList, newOpenAITranslator),
       ("qwen2.5-plus".toList, newOpenAITranslator)]
    else
      [("gpt-3.5-turbo".toList, newOpenAITranslator),
       ("gpt-3.5".toList, newOpenAITranslator),
       ("gpt-4".toList, newOpenAITranslator),
       ("gpt-4-turbo".toList, newOpenAITranslator),
       ("gpt-4o".toList, newOpenAITranslator)])
  else
    [("gpt-3.5-turbo".toList, newMockTranslator "GPT-3.5 Turbo".toList),
     ("gpt-3.5".toList, newMockTranslator "GPT-3.5".toList),
     ("gpt-4".toList, newMockTranslator "GPT-4".toList),
     ("gpt-4-turbo".toList, newMockTranslator "GPT-4 Turbo".toList),
     ("gpt-4o".toList, newMockTranslator "GPT-4O".toList),
     ("Qwen3-Coder-Plus".toList, newMockTranslator "Qwen3 Coder Plus".toList),
     ("qwen-max-latest".toList, newMockTranslator "Qwen Max Latest".toList),
     ("qwen-plus".toList, newMockTranslator "Qwen Plus".toList),
     ("qwen2.5-max".toList, newMockTranslator "Qwen 2.5 Max".toList),
     ("qwen2.5-plus".toList, newMockTranslator "Qwen 2.5 Plus".toList)]) ++
  (if hasAnthropicKey then
    [("claude-3-opus".toList, newAnthropicTranslator),
     ("claude-3-sonnet".toList, newAnthropicTranslator),
     ("claude-3-haiku".toList, newAnthropicTranslator),
     ("claude-3-opus-20240229".toList, newAnthropicTranslator),
     ("claude-3-sonnet-20240229".toList, newAnthropicTranslator),
     ("claude-3-haiku-20240307".toList, newAnthropicTranslator),
     ("claude".toList, newAnthropicTranslator)]
  else
    [("claude-3-opus".toList, newMockTranslator "Claude 3 Opus".toList),
     ("claude-3-sonnet".toList, newMockTranslator "Claude 3 Sonnet".toList),
     ("claude-3-haiku".toList, newMockTranslator "Claude 3 Haiku".toList),
     ("claude-3-opus-20240229".toList, newMockTranslator "Claude 3 Opus (2024-02-29)".toList),
     ("claude-3-sonnet-20240229".toList, newMockTranslator "Claude 3 Sonnet (2024-02-29)".toList),
     ("claude-3-haiku-20240307".toList, newMockTranslator "Claude 3 Haiku (2024-03-07)".toList),
     ("claude".toList, newMockTranslator "Claude".toList)]) ++
  [("llama".toList, newMockTranslator "Llama".toList)]

/-- `GetSupportedModels`: the keys of the translators map. -/
def GetSupportedModels (translators : List (GoStr × Provider)) : List GoStr :=
  translators.map Prod.fst

/-- `IsModelSupported`: key lookup succeeds. -/
def IsModelSupported (translators : List (GoStr × Provider)) (model : GoStr) : Bool :=
  (translators.lookup model).isSome

/-- The retry loop of `Translate` (`for attempt := 0; attempt < 3; attempt++`),
by recursion on the remaining attempts `fuel` (the loop runs with
`fuel = 3 - attempt`).  Alongside the result it returns the number of provider
invocations performed.  A failed attempt first checks `ctx.Err()`, then the
`"validation error:"` message match, and otherwise — if attempts remain —
waits, aborting with the context error if the context fires during the wait.
Every exit from the loop with a non-nil error wraps it in the after-retries
message; the `fuel = 0` case is unreachable from the initial call. -/
def translateLoop (ctx : RunCtx) (model : GoStr) (pv : Provider)
    (req : TranslationRequest) : Nat → Except GoError TranslationResponse × Nat
  | 0 => (.error (.simple "unreachable".toList), 0)
  | fuel + 1 =>
    match pv (3 - (fuel + 1)) req with
    | .ok resp => (.ok resp, 1)
    | .error e =>
      if (ctx.errAfter (3 - (fuel + 1))).isSome then
        (.error (afterRetriesError model e), 1)
      else if containsValidationErrorMsg e then
        (.error (afterRetriesError model e), 1)
      else if 0 < fuel then
        match ctx.errDuringWait (3 - (fuel + 1)) with
        | some ce => (.error ce, 1)
        | none =>
          let r := translateLoop ctx model pv req fuel
          (r.1, r.2 + 1)
      else
        (.error (afterRetriesError model e), 1)

/-- `TranslatorService.Translate`: validate the text, validate the model
against the enumerated supported models, resolve the translator in the same
map, then run the retry loop.  The second component counts provider
invocations. -/
def Translate (translators : List (GoStr × Provider)) (ctx : RunCtx)
    (req : TranslationRequest) : Except GoError TranslationResponse × Nat :=
  match ValidateTextInput req.text with
  | some ve => (.error (.errorf "validation error: ".toList (.validation ve.message)), 0)
  | none =>
  match ValidateModelInput req.model (GetSupportedModels translators) with
  | some ve => (.error (.errorf "validation error: ".toList (.validation ve.message)), 0)
  | none =>
  match translators.lookup req.model with
  | none => (.error (.simple ("unsupported model: ".toList ++ req.model)), 0)
  | some pv => translateLoop ctx req.model pv req 3

end TranslatorService

/-- A context that is already cancelled at every observation point. -/
def cancelledCtx : RunCtx :=
  ⟨fun _ => some .ctxCanceled, fun _ => some .ctxCanceled⟩

/-- `ValidateModelInput` succeeds exactly when the trimmed model is non-empty
and the model occurs verbatim in the supported list. -/
lemma validateModel_none_iff (model : GoStr) (supported : List GoStr) :
    ValidateModelInput model supported = none ↔
      (¬trimSpace model = [] ∧ model ∈ supported) := by
  unfold ValidateModelInput
  by_cases h1 : trimSpace model = []
  · simp [h1]
  · by_cases h2 : model ∈ supported
    · have hany : (supported.any fun supportedModel => supportedModel == model) = true := by
        simp only [List.any_eq_true, beq_iff_eq]
        exact ⟨model, h2, rfl⟩
      simp [h1, hany, h2]
    · have hany : (supported.any fun supportedModel => supportedModel == model) = false := by
        simp only [Bool.eq_false_iff, ne_eq, List.any_eq_true, beq_iff_eq]
        rintro ⟨x, hx, rfl⟩
        exact h2 hx
      simp [h1, hany, h2]

/-- A key that occurs among the mapped-out keys of an association list is
found by `lookup`. -/
lemma lookup_isSome_of_mem_keys (l : List (GoStr × Provider)) (model : GoStr)
    (h : model ∈ l.map Prod.fst) : (l.lookup model).isSome = true := by
  induction l with
  | nil => simp at h
  | cons kv rest ih =>
    obtain ⟨k, v⟩ := kv
    by_cases he : (model == k) = true
    · simp [List.lookup, he]
    · have hmem : model ∈ rest.map Prod.fst := by
        rcases List.mem_cons.mp h with h1 | h1
        · exact absurd (by simp [h1]) he
        · exact h1
      simp [List.lookup, he, ih hmem]

/-- Claim C7: for every model string and supported-model list,
`ValidateModelInput` fails exactly when the trimmed model is empty or the
model is not present under exact, case-sensitive comparison; in particular
"GPT-3.5" fails against a list containing only "gpt-3.5". -/
theorem validateModel_exact_case_sensitive (model : GoStr) (supported : List GoStr) :
    ((ValidateModelInput model supported).isSome = true ↔
      (trimSpace model = [] ∨ model ∉ supported))
  ∧ (ValidateModelInput "GPT-3.5".toList ["gpt-3.5".toList]).isSome = true := by
  refine ⟨?_, by decide⟩
  have h := validateModel_none_iff model supported
  constructor
  · intro hs
    by_contra hc
    push_neg at hc
    rw [h.mpr ⟨hc.1, hc.2⟩] at hs
    simp at hs
  · intro hd
    cases ho : ValidateModelInput model supported with
    | some v => simp
    | none =>
      exfalso
      rcases h.mp ho with ⟨h1, h2⟩
      rcases hd with hd | hd
      · exact h1 hd
      · exact hd h2

/-- Claim C10: a model accepted by `ValidateModelInput` against the key
enumeration of the translators map is necessarily found by the subsequent
lookup in the same map, so the unsupported-model branch cannot be taken. -/
theorem validated_model_resolves (ts : List (GoStr × Provider)) (model : GoStr)
    (h : ValidateModelInput model (TranslatorService.GetSupportedModels ts) = none) :
    (ts.lookup model).isSome = true :=
  lookup_isSome_of_mem_keys ts model ((validateModel_none_iff _ _).mp h).2

/-- Witness for C10 at a one-entry registry. -/
theorem validated_model_resolves_witness :
    ValidateModelInput "gpt-3.5".toList
        (TranslatorService.GetSupportedModels
          [("gpt-3.5".toList, mockProviderLive "GPT-3.5".toList)]) = none
  ∧ (([("gpt-3.5".toList, mockProviderLive "GPT-3.5".toList)] :
        List (GoStr × Provider)).lookup "gpt-3.5".toList).isSome = true :=
  ⟨rfl, validated_model_resolves
    [("gpt-3.5".toList, mockProviderLive "GPT-3.5".toList)] "gpt-3.5".toList rfl⟩

/-- Claim C6: a request failing text validation, or passing it but failing
model validation, makes `Translate` return the wrapped validation error with
zero provider invocations. -/
theorem translate_validation_no_provider (ts : List (GoStr × Provider))
    (ctx : RunCtx) (req : TranslationRequest) :
    (∀ ve, ValidateTextInput req.text = some ve →
      TranslatorService.Translate ts ctx req =
        (.error (.errorf "validation error: ".toList (.validation ve.message)), 0))
  ∧ (∀ ve, ValidateTextInput req.text = none →
      ValidateModelInput req.model (TranslatorService.GetSupportedModels ts) = some ve →
      TranslatorService.Translate ts ctx req =
        (.error (.errorf "validation error: ".toList (.validation ve.message)), 0)) := by
  constructor
  · intro ve h
    simp [TranslatorService.Translate, h]
  · intro ve h1 h2
    simp [TranslatorService.Translate, h1, h2]

/-- Witness for C6: the empty-text request of end-to-end scenario 2. -/
theorem translate_validation_no_provider_witness :
    ValidateTextInput (([] : GoStr)) = some ⟨"Text input cannot be empty".toList⟩
  ∧ TranslatorService.Translate [] liveCtx ⟨[], "gpt-3.5".toList⟩ =
      (.error (.errorf "validation error: ".toList
        (.validation "Text input cannot be empty".toList)), 0) :=
  ⟨rfl, (translate_validation_no_provider [] liveCtx ⟨[], "gpt-3.5".toList⟩).1
    ⟨"Text input cannot be empty".toList⟩ rfl⟩

/-- Counterexample for C2: with the context already cancelled, a provider
attempt failing with a plain transient error makes `Translate` stop after one
invocation but return the transient error wrapped in the after-retries
message, not the context's cancellation error. -/
theorem translate_cancelled_cex :
    TranslatorService.Translate
        [("m".toList, fun _ _ => .error (.simple "boom".toList))]
        cancelledCtx ⟨"Hello".toList, "m".toList⟩ =
      (.error (afterRetriesError "m".toList (.simple "boom".toList)), 1)
  ∧ afterRetriesError "m".toList (.simple "boom".toList) ≠ .ctxCanceled
  ∧ afterRetriesError "m".toList (.simple "boom".toList) ≠ .ctxDeadlineExceeded :=
  ⟨rfl, by decide, by decide⟩

/-- Claim C2 (amended): whenever the retry loop reaches an attempt that fails
while `ctx.Err()` is already non-nil, no further attempts are made (exactly
one invocation from that point) and the loop returns the provider's last
error wrapped in the after-retries message. -/
theorem translate_cancelled_no_further_attempts (ctx : RunCtx) (model : GoStr)
    (pv : Provider) (req : TranslationRequest) (fuel : Nat) (e : GoError)
    (h1 : 0 < fuel) (h2 : pv (3 - fuel) req = .error e)
    (h3 : (ctx.errAfter (3 - fuel)).isSome = true) :
    TranslatorService.translateLoop ctx model pv req fuel =
      (.error (afterRetriesError model e), 1) := by
  obtain ⟨f, rfl⟩ : ∃ f, fuel = f + 1 := ⟨fuel - 1, by omega⟩
  have hf : 3 - (f + 1) = 2 - f := by omega
  rw [hf] at h2 h3
  unfold TranslatorService.translateLoop
  simp [h2, h3]

/-- Witness for C2's amended theorem: an always-cancelled context and an
always-failing provider, with three attempts of budget remaining. -/
theorem translate_cancelled_no_further_attempts_witness :
    (0 < 3 ∧ (cancelledCtx.errAfter (3 - 3)).isSome = true)
  ∧ TranslatorService.translateLoop cancelledCtx "m".toList
      (fun _ _ => .error (.simple "boom".toList)) ⟨"Hello".toList, "m".toList⟩ 3 =
      (.error (afterRetriesError "m".toList (.simple "boom".toList)), 1) :=
  ⟨⟨by decide, rfl⟩, translate_cancelled_no_further_attempts cancelledCtx "m".toList
    (fun _ _ => .error (.simple "boom".toList)) ⟨"Hello".toList, "m".toList⟩ 3
    (.simple "boom".toList) (by decide) rfl rfl⟩

/-- Counterexample for C3: a provider that always fails with a bare
`*ValidationError` (message without the "validation error:" marker) is
retried: three invocations happen, and the final error is the after-retries
wrap of the validation error.  The repository's own retry test relies on this
behaviour. -/
theorem translate_bare_validation_error_retried_cex :
    TranslatorService.Translate
        [("m".toList, fun _ _ => .error (.validation "Text input cannot be empty".toList))]
        liveCtx ⟨"Hello".toList, "m".toList⟩ =
      (.error (afterRetriesError "m".toList
        (.validation "Text input cannot be empty".toList)), 3) := rfl

/-- Claim C3 (amended): the retry loop stops after a failed attempt on the
validation classification exactly when the attempt's error message contains
the substring "validation error:" (a string match, not a check of the error's
dynamic type), and then returns that error wrapped in the after-retries
message. -/
theorem translate_validation_msg_stops_retry (ctx : RunCtx) (model : GoStr)
    (pv : Provider) (req : TranslationRequest) (fuel : Nat) (e : GoError)
    (h1 : 0 < fuel) (h2 : pv (3 - fuel) req = .error e)
    (h3 : ctx.errAfter (3 - fuel) = none)
    (h4 : containsValidationErrorMsg e = true) :
    TranslatorService.translateLoop ctx model pv req fuel =
      (.error (afterRetriesError model e), 1) := by
  obtain ⟨f, rfl⟩ : ∃ f, fuel = f + 1 := ⟨fuel - 1, by omega⟩
  have hf : 3 - (f + 1) = 2 - f := by omega
  rw [hf] at h2 h3
  unfold TranslatorService.translateLoop
  simp [h2, h3, h4]

/-- Witness for C3's amended theorem: an error whose message carries the
"validation error:" marker stops the loop after one invocation. -/
theorem translate_validation_msg_stops_retry_witness :
    containsValidationErrorMsg
      (.errorf "validation error: ".toList
        (.validation "Text input cannot be empty".toList)) = true
  ∧ TranslatorService.translateLoop liveCtx "m".toList
      (fun _ _ => .error (.errorf "validation error: ".toList
        (.validation "Text input cannot be empty".toList)))
      ⟨"Hello".toList, "m".toList⟩ 3 =
      (.error (afterRetriesError "m".toList
        (.errorf "validation error: ".toList
          (.validation "Text input cannot be empty".toList))), 1) :=
  ⟨by decide, translate_validation_msg_stops_retry liveCtx "m".toList
    (fun _ _ => .error (.errorf "validation error: ".toList
      (.validation "Text input cannot be empty".toList)))
    ⟨"Hello".toList, "m".toList⟩ 3
    (.errorf "validation error: ".toList
      (.validation "Text input cannot be empty".toList))
    (by decide) rfl rfl (by decide)⟩

/-- The retry loop never performs more invocations than it has fuel. -/
lemma translateLoop_count_le (ctx : RunCtx) (model : GoStr) (pv : Provider)
    (req : TranslationRequest) (fuel : Nat) :
    (TranslatorService.translateLoop ctx model pv req fuel).2 ≤ fuel := by
  induction fuel with
  | zero => simp [TranslatorService.translateLoop]
  | succ f ih =>
    unfold TranslatorService.translateLoop
    repeat' split
    all_goals simp only [Prod.snd]
    all_goals omega

/-- Claim C5: `Translate` never invokes the resolved provider more than 3
times, and when validation and resolution succeed but every attempt fails
with a transient error under a live context, it returns the last error
wrapped in the after-retries message naming the model, after exactly 3
provider invocations. -/
theorem translate_retry_exhaustion (ts : List (GoStr × Provider)) (ctx : RunCtx)
    (req : TranslationRequest) :
    (TranslatorService.Translate ts ctx req).2 ≤ 3
  ∧ (∀ (pv : Provider) (e : Nat → GoError),
      ValidateTextInput req.text = none →
      ValidateModelInput req.model (TranslatorService.GetSupportedModels ts) = none →
      ts.lookup req.model = some pv →
      (∀ i, pv i req = .error (e i)) →
      (∀ i, containsValidationErrorMsg (e i) = false) →
      (∀ i, ctx.errAfter i = none) →
      (∀ i, ctx.errDuringWait i = none) →
      TranslatorService.Translate ts ctx req =
        (.error (afterRetriesError req.model (e 2)), 3)) := by
  constructor
  · unfold TranslatorService.Translate
    cases hv : ValidateTextInput req.text with
    | some ve => simp
    | none =>
      cases hm : ValidateModelInput req.model (TranslatorService.GetSupportedModels ts) with
      | some ve => simp
      | none =>
        cases hl : ts.lookup req.model with
        | none => simp
        | some pv => simpa using translateLoop_count_le ctx req.model pv req 3
  · intro pv e h1 h2 h3 hpv hmsg hafter hwait
    have step : ∀ fuel, 0 < fuel → fuel ≤ 3 →
        TranslatorService.translateLoop ctx req.model pv req fuel =
          (.error (afterRetriesError req.model (e 2)), fuel) := by
      intro fuel
      induction fuel with
      | zero => omega
      | succ f ih =>
        intro _ hle
        unfold TranslatorService.translateLoop
        rw [hpv (3 - (f + 1))]
        simp only [hafter, hmsg, hwait, Option.isSome_none, Bool.false_eq_true, if_false]
        by_cases hf : 0 < f
        · rw [if_pos hf, ih hf (by omega)]
        · have hf0 : f = 0 := by omega
          subst hf0
          simp
    simp only [TranslatorService.Translate, h1, h2, h3]
    exact step 3 (by omega) (by omega)

/-- Witness for C5: a one-entry registry whose provider always fails with a
plain network error, under a live context. -/
theorem translate_retry_exhaustion_witness :
    ValidateTextInput "Hello, world!".toList = none
  ∧ TranslatorService.Translate
      [("test-model".toList, fun _ _ => .error (.simple "network error".toList))]
      liveCtx ⟨"Hello, world!".toList, "test-model".toList⟩ =
      (.error (afterRetriesError "test-model".toList (.simple "network error".toList)), 3) :=
  ⟨rfl, (translate_retry_exhaustion
      [("test-model".toList, fun _ _ => .error (.simple "network error".toList))]
      liveCtx ⟨"Hello, world!".toList, "test-model".toList⟩).2
    (fun _ _ => .error (.simple "network error".toList))
    (fun _ => .simple "network error".toList)
    rfl rfl rfl (fun _ => rfl) (fun _ => rfl) (fun _ => rfl) (fun _ => rfl)⟩

/-- Every element of `l` satisfies `p` exactly when every element surviving
`dropWhile p` does. -/
lemma forall_mem_dropWhile_iff (p : Char → Bool) (l : GoStr) :
    (∀ c ∈ l.dropWhile p, p c) ↔ (∀ c ∈ l, p c) := by
  constructor
  · intro h c hc
    rw [← List.takeWhile_append_dropWhile (p := p) (l := l)] at hc
    rcases List.mem_append.mp hc with h1 | h1
    · exact List.mem_takeWhile_imp h1
    · exact h c h1
  · intro h c hc
    refine h c ?_
    rw [← List.takeWhile_append_dropWhile (p := p) (l := l)]
    exact List.mem_append_right _ hc

/-- `TrimSpace` yields the empty string exactly when every rune is
White_Space. -/
lemma trimSpace_eq_nil_iff (l : GoStr) :
    trimSpace l = [] ↔ ∀ c ∈ l, goIsSpace c := by
  unfold trimSpace
  rw [List.reverse_eq_nil_iff, List.dropWhile_eq_nil_iff]
  simp only [List.mem_reverse]
  exact forall_mem_dropWhile_iff goIsSpace l

/-- The splitter returns no tokens exactly when it is fed no pending word and
only whitespace. -/
lemma fieldsAux_eq_nil_iff (l : GoStr) : ∀ acc,
    fieldsAux acc l = [] ↔ (acc = [] ∧ ∀ c ∈ l, goIsSpace c) := by
  induction l with
  | nil =>
    intro acc
    cases acc with
    | nil => simp [fieldsAux]
    | cons a as => simp [fieldsAux]
  | cons c rest ih =>
    intro acc
    by_cases hc : goIsSpace c
    · cases acc with
      | nil => simp [fieldsAux, hc, ih]
      | cons a as => simp [fieldsAux, hc]
    · simp [fieldsAux, hc, ih]

/-- Claim C9: an input that is empty or whitespace-only after trimming fails
`ValidateTextInput` with the empty-input validation error, and the
whitespace-only predicate (`Fields` yields zero tokens) holds exactly when
the trimmed-empty predicate holds, so the second check is redundant. -/
theorem validateText_whitespace_equiv (text : GoStr) :
    (trimSpace text = [] →
      ValidateTextInput text = some ⟨"Text input cannot be empty".toList⟩)
  ∧ ((fields text).length = 0 ↔ trimSpace text = []) := by
  constructor
  · intro h
    simp [ValidateTextInput, h]
  · rw [List.length_eq_zero, trimSpace_eq_nil_iff]
    unfold fields
    rw [fieldsAux_eq_nil_iff]
    simp

/-- Witness for C9 at the repository's whitespace-only test input. -/
theorem validateText_whitespace_equiv_witness :
    trimSpace "   \t\n  ".toList = []
  ∧ ValidateTextInput "   \t\n  ".toList = some ⟨"Text input cannot be empty".toList⟩
  ∧ ((fields "   \t\n  ".toList).length = 0 ↔ trimSpace "   \t\n  ".toList = []) :=
  ⟨by decide, (validateText_whitespace_equiv "   \t\n  ".toList).1 (by decide),
    (validateText_whitespace_equiv "   \t\n  ".toList).2⟩

/-- Regex whitespace runes are ASCII. -/
lemma isRegexSpace_ascii (c : Char) (h : isRegexSpace c = true) : c.toNat ≤ 127 := by
  simp only [isRegexSpace, Bool.or_eq_true, decide_eq_true_eq] at h
  rcases h with ((((rfl | rfl) | rfl) | rfl) | rfl) <;> decide

/-- Regex whitespace runes are not ASCII letters. -/
lemma isRegexSpace_not_letter (c : Char) (h : isRegexSpace c = true) :
    isGoAsciiLetter c = false := by
  simp only [isRegexSpace, Bool.or_eq_true, decide_eq_true_eq] at h
  rcases h with ((((rfl | rfl) | rfl) | rfl) | rfl) <;> decide

/-- Whitespace collapsing removes some number `k` of runes, all of them
ASCII: the ASCII count and the total length drop by the same `k`. -/
lemma collapseAux_counts (l : GoStr) : ∀ inRun, ∃ k,
    asciiCountLe127 (collapseAux inRun l) + k = asciiCountLe127 l ∧
    (collapseAux inRun l).length + k = l.length := by
  induction l with
  | nil => intro inRun; exact ⟨0, by simp [collapseAux], by simp [collapseAux]⟩
  | cons c rest ih =>
    intro inRun
    by_cases hc : isRegexSpace c = true
    · have hca : c.toNat ≤ 127 := isRegexSpace_ascii c hc
      have e1 : asciiCountLe127 (c :: rest) = asciiCountLe127 rest + 1 := by
        simp [asciiCountLe127, List.countP_cons, hca]
      cases inRun with
      | true =>
        obtain ⟨k, h1, h2⟩ := ih true
        refine ⟨k + 1, ?_, ?_⟩
        · simp only [collapseAux, hc, if_true, e1]
          omega
        · simp only [collapseAux, hc, if_true, List.length_cons]
          omega
      | false =>
        obtain ⟨k, h1, h2⟩ := ih true
        have e2 : asciiCountLe127 (' ' :: collapseAux true rest) =
            asciiCountLe127 (collapseAux true rest) + 1 := by
          simp [asciiCountLe127, List.countP_cons]
        refine ⟨k, ?_, ?_⟩
        · simp only [collapseAux, hc, if_true, if_false, Bool.false_eq_true, e1, e2]
          omega
        · simp only [collapseAux, hc, if_true, if_false, Bool.false_eq_true, List.length_cons]
          omega
    · obtain ⟨k, h1, h2⟩ := ih false
      by_cases hac : c.toNat ≤ 127
      · have e1 : asciiCountLe127 (c :: rest) = asciiCountLe127 rest + 1 := by
          simp [asciiCountLe127, List.countP_cons, hac]
        have e2 : asciiCountLe127 (c :: collapseAux false rest) =
            asciiCountLe127 (collapseAux false rest) + 1 := by
          simp [asciiCountLe127, List.countP_cons, hac]
        refine ⟨k, ?_, ?_⟩
        · simp only [collapseAux, hc, if_false, Bool.false_eq_true, e1, e2]
          omega
        · simp only [collapseAux, hc, if_false, Bool.false_eq_true, List.length_cons]
          omega
      · have e1 : asciiCountLe127 (c :: rest) = asciiCountLe127 rest := by
          simp [asciiCountLe127, List.countP_cons, hac]
        have e2 : asciiCountLe127 (c :: collapseAux false rest) =
            asciiCountLe127 (collapseAux false rest) := by
          simp [asciiCountLe127, List.countP_cons, hac]
        refine ⟨k, ?_, ?_⟩
        · simp only [collapseAux, hc, if_false, Bool.false_eq_true, e1, e2]
          omega
        · simp only [collapseAux, hc, if_false, Bool.false_eq_true, List.length_cons]
          omega

/-- Whitespace collapsing leaves the presence of ASCII letters unchanged. -/
lemma collapseAux_hasLetter (l : GoStr) : ∀ inRun,
    hasAsciiLetterB (collapseAux inRun l) = hasAsciiLetterB l := by
  induction l with
  | nil => intro inRun; rfl
  | cons c rest ih =>
    intro inRun
    simp only [hasAsciiLetterB] at ih ⊢
    by_cases hc : isRegexSpace c = true
    · have hnl : isGoAsciiLetter c = false := isRegexSpace_not_letter c hc
      have hsp : isGoAsciiLetter ' ' = false := rfl
      cases inRun with
      | true => simp [collapseAux, hc, List.any_cons, ih true, hnl]
      | false => simp [collapseAux, hc, List.any_cons, ih true, hnl, hsp]
    · simp [collapseAux, hc, List.any_cons, ih false]

/-- A text without ASCII letters whose ASCII fraction is at most 4/5 is
rejected by the language heuristic. -/
lemma containsEnglish_false_of_no_letter_low_ascii (text : GoStr)
    (hL : hasAsciiLetterB text = false)
    (hF : 5 * asciiCountLe127 text ≤ 4 * text.length) :
    containsEnglishCharacters text = false := by
  have hL2 : hasAsciiLetterB (collapseWhitespace text) = false := by
    rw [collapseWhitespace, collapseAux_hasLetter text false]
    exact hL
  obtain ⟨k, h1, h2⟩ := collapseAux_counts text false
  have hF2 : ¬(4 * (collapseWhitespace text).length <
      5 * asciiCountLe127 (collapseWhitespace text)) := by
    have hck : asciiCountLe127 (collapseWhitespace text) + k = asciiCountLe127 text := h1
    have hlk : (collapseWhitespace text).length + k = text.length := h2
    omega
  unfold containsEnglishCharacters
  simp [hL2, hF2]

/-- Claim C8: a text with no ASCII letter and ASCII fraction at most 0.8
fails `ValidateTextInput`; a text with an ASCII letter passes the heuristic;
"你好世界" fails with the English-characters error and "Hello 你好 world"
passes the heuristic. -/
theorem validateText_language_heuristic (text : GoStr) :
    (hasAsciiLetterB text = false → 5 * asciiCountLe127 text ≤ 4 * text.length →
      (ValidateTextInput text).isSome = true)
  ∧ (hasAsciiLetterB text = true → containsEnglishCharacters text = true)
  ∧ ValidateTextInput "你好世界".toList =
      some ⟨"Text must contain English characters".toList⟩
  ∧ containsEnglishCharacters "Hello 你好 world".toList = true := by
  refine ⟨?_, ?_, by decide, by decide⟩
  · intro hL hF
    have hE := containsEnglish_false_of_no_letter_low_ascii text hL hF
    by_cases h1 : trimSpace text = []
    · simp [ValidateTextInput, h1]
    by_cases h2 : 10000 < goLen text
    · simp [ValidateTextInput, h1, h2]
    by_cases h3 : (fields text).length = 0
    · simp [ValidateTextInput, h1, h2, h3]
    by_cases h4 : containsInvalidCharacters text = true
    · simp [ValidateTextInput, h1, h2, h3, h4]
    · simp [ValidateTextInput, h1, h2, h3, h4, hE]
  · intro hL
    have hL2 : hasAsciiLetterB (collapseWhitespace text) = true := by
      rw [collapseWhitespace, collapseAux_hasLetter text false]
      exact hL
    unfold containsEnglishCharacters
    simp [hL2]

/-- Witness for C8 at the all-CJK test input. -/
theorem validateText_language_heuristic_witness :
    (hasAsciiLetterB "你好世界".toList = false
      ∧ 5 * asciiCountLe127 "你好世界".toList ≤ 4 * ("你好世界".toList).length)
  ∧ (ValidateTextInput "你好世界".toList).isSome = true :=
  ⟨⟨by decide, by decide⟩,
    (validateText_language_heuristic "你好世界".toList).1 (by decide) (by decide)⟩

/-- `goLen` of a repeated rune. -/
lemma goLen_replicate (n : Nat) (c : Char) :
    goLen (List.replicate n c) = n * utf8Size c := by
  induction n with
  | zero => simp [goLen]
  | succ m ih =>
    rw [List.replicate_succ]
    simp only [goLen, List.map_cons, List.sum_cons] at ih ⊢
    rw [Nat.succ_mul]
    omega

/-- Trimming a repetition of a non-whitespace rune is the identity. -/
lemma trimSpace_replicate (n : Nat) (c : Char) (h : goIsSpace c = false) :
    trimSpace (List.replicate n c) = List.replicate n c := by
  have hdrop : ∀ m, (List.replicate m c).dropWhile goIsSpace = List.replicate m c := by
    intro m
    cases m with
    | zero => simp
    | succ k =>
      rw [List.replicate_succ]
      simp [List.dropWhile_cons, h]
  unfold trimSpace
  rw [hdrop, List.reverse_replicate, hdrop, List.reverse_replicate]

/-- Counterexample for C4: a text of exactly 10000 characters (each a 3-byte
CJK rune) fails `ValidateTextInput` with the too-long error, because the
source measures `len(text)` in UTF-8 bytes, not characters. -/
theorem validateText_length_cex :
    ValidateTextInput (List.replicate 10000 '你') =
      some ⟨"Text input is too long (maximum 10000 characters)".toList⟩
  ∧ (List.replicate 10000 '你').length = 10000 := by
  constructor
  · have ht : trimSpace (List.replicate 10000 '你') = List.replicate 10000 '你' :=
      trimSpace_replicate 10000 '你' (by decide)
    have hne : ¬ trimSpace (List.replicate 10000 '你') = [] := by
      rw [ht]
      intro hcon
      have hlen0 := congrArg List.length hcon
      rw [List.length_replicate] at hlen0
      simp only [List.length_nil] at hlen0
      omega
    have hlen : 10000 < goLen (List.replicate 10000 '你') := by
      rw [goLen_replicate, show utf8Size '你' = 3 from rfl]
      norm_num
    unfold ValidateTextInput
    rw [if_neg hne, if_pos hlen]
  · exact List.length_replicate 10000 '你'

/-- Claim C4 (amended): the length gate of `ValidateTextInput` is on the
UTF-8 byte length (`goLen`): any non-whitespace-only text longer than 10000
bytes fails with the too-long error, and no text of at most 10000 bytes can
fail with that error. -/
theorem validateText_length_is_bytes (text : GoStr) :
    (¬trimSpace text = [] → 10000 < goLen text →
      ValidateTextInput text =
        some ⟨"Text input is too long (maximum 10000 characters)".toList⟩)
  ∧ (goLen text ≤ 10000 →
      ValidateTextInput text ≠
        some ⟨"Text input is too long (maximum 10000 characters)".toList⟩) := by
  constructor
  · intro h1 h2
    simp [ValidateTextInput, h1, h2]
  · intro hle
    have h2 : ¬ 10000 < goLen text := by omega
    unfold ValidateTextInput
    by_cases h1 : trimSpace text = []
    · rw [if_pos h1]
      decide
    rw [if_neg h1, if_neg h2]
    by_cases h3 : (fields text).length = 0
    · rw [if_pos h3]
      decide
    rw [if_neg h3]
    by_cases h4 : containsInvalidCharacters text = true
    · rw [if_pos h4]
      decide
    rw [if_neg h4]
    by_cases h5 : containsEnglishCharacters text = false
    · rw [if_pos h5]
      decide
    rw [if_neg h5]
    by_cases h6 : isMostlyEnglish text = false
    · rw [if_pos h6]
      decide
    rw [if_neg h6]
    simp

/-- Witness for C4's amended theorem: 10001 ASCII letters exceed the byte
budget and fail; a two-letter text cannot produce the too-long error. -/
theorem validateText_length_is_bytes_witness :
    (¬trimSpace (List.replicate 10001 'a') = []
      ∧ 10000 < goLen (List.replicate 10001 'a')
      ∧ ValidateTextInput (List.replicate 10001 'a') =
          some ⟨"Text input is too long (maximum 10000 characters)".toList⟩)
  ∧ (goLen "Hi".toList ≤ 10000
      ∧ ValidateTextInput "Hi".toList ≠
          some ⟨"Text input is too long (maximum 10000 characters)".toList⟩) := by
  have h1 : ¬ trimSpace (List.replicate 10001 'a') = [] := by
    rw [trimSpace_replicate 10001 'a' (by decide)]
    intro hcon
    have hlen0 := congrArg List.length hcon
    rw [List.length_replicate] at hlen0
    simp only [List.length_nil] at hlen0
    omega
  have h2 : 10000 < goLen (List.replicate 10001 'a') := by
    rw [goLen_replicate, show utf8Size 'a' = 1 from rfl]
    norm_num
  exact ⟨⟨h1, h2, (validateText_length_is_bytes _).1 h1 h2⟩,
    ⟨by decide, (validateText_length_is_bytes _).2 (by decide)⟩⟩

/-- Claim C1 (code bug): end-to-end, against the no-API-key registry built by
`registerTranslators` (in which "gpt-3.5" is bound to the mock translator
named "GPT-3.5"), the request with text "Hello, world!" and model "gpt-3.5"
yields a response whose `Original` is "Hello, world!" and whose `Translation`
is non-empty, but whose `Model` field is the mock's display name "GPT-3.5",
not the requested model identifier "gpt-3.5" that the claim, the repository's
API documentation, and the real (OpenAI/Anthropic) translators use. -/
theorem translate_mock_model_field (po pa : Provider) :
    TranslatorService.Translate
        (TranslatorService.registerTranslators false false false po pa mockProviderLive)
        liveCtx ⟨"Hello, world!".toList, "gpt-3.5".toList⟩ =
      (.ok ⟨"Hello, world!".toList, "[Translated by GPT-3.5] Hello, world!".toList,
        "GPT-3.5".toList⟩, 1)
  ∧ "GPT-3.5".toList ≠ "gpt-3.5".toList
  ∧ "[Translated by GPT-3.5] Hello, world!".toList ≠ ([] : GoStr) :=
  ⟨rfl, by decide, by decide⟩
